import Mathlib

/-!
Shallow embedding of the onboarding wizard of the aicommissioner dashboard
(src/dashboard/src/app/onboarding/page.tsx) and of the Sleeper connect page
(src/dashboard/src/app/privacy/page.tsx, component ConnectPage).

The wizard is a forward-only four step state machine driven by React state:
`currentStep : number` starts at 1 (Connect League), and the three callbacks
`handleLeagueConnect`, `handlePreferences`, `handleTeamVerification` merge a
step payload into `onboardingData` and set `currentStep` to 2, 3, 4
respectively.  Step panels are rendered by the guards on lines 578-586 of
onboarding/page.tsx, so a panel's emission can only fire while its guard
holds; this is modelled by `wizardStep`, which applies an emission event only
when the corresponding panel is rendered and leaves the state unchanged
otherwise.
-/

namespace AICommissioner

/-- Platform tag carried in a league-connect payload; the source uses the
string literals 'yahoo', 'sleeper', 'espn'. -/
inductive Platform
  | yahoo
  | sleeper
  | espn
  deriving DecidableEq

/-- The payload emitted by the LeagueConnection component's `onComplete`:
`{ platform, leagueId, username? }`.  The Yahoo branch omits the `username`
key (modelled as `none`); the Sleeper branch always passes the form's
`username` string (modelled as `some`). -/
structure LeaguePayload where
  platform : Platform
  leagueId : String
  username : Option String
  deriving DecidableEq

/-- The preference record of the PreferencesSelection component
(onboarding/page.tsx lines 204-215). -/
structure PreferenceSet where
  emailNotifications : Bool
  weeklyRecap : Bool
  recapDay : String
  recapTime : String
  powerRankings : Bool
  waiverReport : Bool
  injuryAlerts : Bool
  tradeAlerts : Bool
  groupmeIntegration : Bool
  groupmeGroupId : String
  deriving DecidableEq

/-- The payload emitted by TeamVerification: `{ teamId: selectedTeam }`. -/
structure TeamPayload where
  teamId : String
  deriving DecidableEq

/-- The Sleeper form state `sleeperData` (both pages initialize it to
`{ league_id: '', username: '' }`). -/
structure SleeperForm where
  league_id : String
  username : String
  deriving DecidableEq

/-- The aggregated record `onboardingData` of OnboardingContent, initialized
with all three fields `null`. -/
structure OnboardingData where
  league : Option LeaguePayload
  preferences : Option PreferenceSet
  team : Option TeamPayload
  deriving DecidableEq

/-- The state OnboardingContent keeps in React state: the numeric step
pointer `currentStep` (1 = Connect, 2 = Preferences, 3 = Verify,
4 = Complete) and the aggregated `onboardingData`. -/
structure OnboardingState where
  currentStep : Nat
  data : OnboardingData
  deriving DecidableEq

namespace LeagueConnection

/-- handleYahooConnect (lines 18-24): the simulated Yahoo OAuth connect
always completes with the constant payload
`{ platform: 'yahoo', leagueId: 'yahoo-league-123' }` (no username key). -/
def handleYahooConnect : LeaguePayload :=
  ⟨Platform.yahoo, "yahoo-league-123", none⟩

/-- Outcome of one submission of the Sleeper form in the wizard: the message
written by `setMessage`, the payload passed to `onComplete` (if any), and
whether the (simulated) connect operation was started at all. -/
structure SleeperSubmitResult where
  message : String
  emission : Option LeaguePayload
  connectRequested : Bool
  deriving DecidableEq

/-- handleSleeperConnect (lines 26-45): an empty `league_id` is rejected
locally with the message 'League ID is required' and nothing else happens;
otherwise the message is cleared, the simulated connect operation runs and
`onComplete` receives `{ platform: 'sleeper', leagueId, username }` with the
form's (possibly empty) username string. -/
def handleSleeperConnect (form : SleeperForm) : SleeperSubmitResult :=
  if form.league_id = "" then
    ⟨"League ID is required", none, false⟩
  else
    ⟨"", some ⟨Platform.sleeper, form.league_id, some form.username⟩, true⟩

end LeagueConnection

namespace PreferencesSelection

/-- The initial preference record (lines 204-215). -/
def initialPreferences : PreferenceSet :=
  ⟨true, true, "tuesday", "09:00", true, true, false, true, false, ""⟩

/-- handleSubmit (lines 217-220): no validation, `onComplete(preferences)`
passes the current record verbatim. -/
def handleSubmit (prefs : PreferenceSet) : PreferenceSet :=
  prefs

end PreferencesSelection

namespace TeamVerification

/-- handleVerify (lines 384-391): a falsy (empty) `selectedTeam` returns
without emitting; otherwise `onComplete({ teamId: selectedTeam })`. -/
def handleVerify (selectedTeam : String) : Option TeamPayload :=
  if selectedTeam = "" then none else some ⟨selectedTeam⟩

/-- The `disabled` attribute of the Verify Team button (line 435):
`!selectedTeam || loading`. -/
def verifyDisabled (selectedTeam : String) (loading : Bool) : Bool :=
  selectedTeam == "" || loading

end TeamVerification

namespace SetupComplete

/-- handleGoToSettings (lines 457-464): a truthy `leagueId` routes to
`/settings/LEAGUEID`, otherwise to '/dashboard'.  A missing prop and an
empty string are both falsy in the source. -/
def handleGoToSettings (leagueId : Option String) : String :=
  match leagueId with
  | some id => if id = "" then "/dashboard" else "/settings/" ++ id
  | none => "/dashboard"

end SetupComplete

namespace OnboardingContent

/-- handleLeagueConnect (lines 523-526): merge the league payload and set
`currentStep` to 2. -/
def handleLeagueConnect (s : OnboardingState) (p : LeaguePayload) : OnboardingState :=
  ⟨2, ⟨some p, s.data.preferences, s.data.team⟩⟩

/-- handlePreferences (lines 528-531): merge the preference payload and set
`currentStep` to 3. -/
def handlePreferences (s : OnboardingState) (p : PreferenceSet) : OnboardingState :=
  ⟨3, ⟨s.data.league, some p, s.data.team⟩⟩

/-- handleTeamVerification (lines 533-536): merge the team payload and set
`currentStep` to 4. -/
def handleTeamVerification (s : OnboardingState) (t : TeamPayload) : OnboardingState :=
  ⟨4, ⟨s.data.league, s.data.preferences, some t⟩⟩

end OnboardingContent

/-- The user interactions that can make a step panel emit its payload. -/
inductive WizardEvent
  | connectYahoo
  | connectSleeper (form : SleeperForm)
  | submitPreferences (prefs : PreferenceSet)
  | verifyTeam (selectedTeam : String)
  deriving DecidableEq

/-- One wizard interaction.  A panel's emission can only reach
OnboardingContent while that panel is rendered (lines 578-586): the
LeagueConnection panel at `currentStep === 1`, the PreferencesSelection
panel at `currentStep === 2`, the TeamVerification panel at
`currentStep === 3 && onboardingData.league`.  An interaction whose panel is
not rendered, or whose handler bails out locally, leaves the state
unchanged. -/
def wizardStep (s : OnboardingState) (e : WizardEvent) : OnboardingState :=
  match e with
  | .connectYahoo =>
      if s.currentStep = 1 then
        OnboardingContent.handleLeagueConnect s LeagueConnection.handleYahooConnect
      else s
  | .connectSleeper form =>
      if s.currentStep = 1 then
        match (LeagueConnection.handleSleeperConnect form).emission with
        | some p => OnboardingContent.handleLeagueConnect s p
        | none => s
      else s
  | .submitPreferences prefs =>
      if s.currentStep = 2 then
        OnboardingContent.handlePreferences s prefs
      else s
  | .verifyTeam sel =>
      if s.currentStep = 3 ∧ s.data.league.isSome = true then
        match TeamVerification.handleVerify sel with
        | some t => OnboardingContent.handleTeamVerification s t
        | none => s
      else s

/-- The session created at wizard mount: `currentStep = 1`, all fields
`null` (lines 509-514). -/
def initialState : OnboardingState :=
  ⟨1, ⟨none, none, none⟩⟩

/-- The states the wizard can be in after any sequence of interactions. -/
inductive Reachable : OnboardingState → Prop
  | init : Reachable initialState
  | step (s : OnboardingState) (e : WizardEvent) :
      Reachable s → Reachable (wizardStep s e)

/-- The render guard of the TeamVerification panel (line 580):
`currentStep === 3 && onboardingData.league`. -/
def verifyRendered (s : OnboardingState) : Bool :=
  s.currentStep == 3 && s.data.league.isSome

/-- The `leagueId` prop handed to SetupComplete on line 586:
`onboardingData.league?.leagueId`. -/
def completionLeagueId (s : OnboardingState) : Option String :=
  Option.map (fun p => p.leagueId) s.data.league

namespace ConnectPage

/-- Component state of the standalone ConnectPage (privacy/page.tsx):
the Sleeper form, the message banner, and its own `step` counter starting
at 1. -/
structure State where
  sleeperData : SleeperForm
  message : String
  step : Nat
  deriving DecidableEq

/-- Outcome of the `fetch('/connect/sleeper', ...)` call: `response.ok`
with some body, a non-ok response with some body text, or a thrown
transport error. -/
inductive FetchOutcome
  | success (body : String)
  | failure (body : String)
  | transportError
  deriving DecidableEq

/-- handleSleeperConnect of ConnectPage (privacy/page.tsx lines 165-198):
an empty `league_id` sets 'League ID is required' and issues no request;
otherwise the fetch outcome decides: ok clears the form, shows the success
message and sets `step` to 2; a non-ok response shows
'Failed to connect: ' followed by the response text and leaves `step`
unchanged; a thrown error shows 'Network error occurred' and leaves `step`
unchanged. -/
def handleSleeperConnect (st : State) (outcome : FetchOutcome) : State :=
  if st.sleeperData.league_id = "" then
    ⟨st.sleeperData, "League ID is required", st.step⟩
  else
    match outcome with
    | .success _ =>
        ⟨⟨"", ""⟩, "Sleeper league connected successfully!", 2⟩
    | .failure body =>
        ⟨st.sleeperData, "Failed to connect: " ++ body, st.step⟩
    | .transportError =>
        ⟨st.sleeperData, "Network error occurred", st.step⟩

end ConnectPage

/-- Invariant of the wizard state machine: the step pointer stays in 1..4
and each aggregated field is populated exactly from the step that merges
it onward; every stored league payload carries a non-empty `leagueId`. -/
def Inv (s : OnboardingState) : Prop :=
  1 ≤ s.currentStep ∧ s.currentStep ≤ 4 ∧
    (s.data.league.isSome = true ↔ 2 ≤ s.currentStep) ∧
    (s.data.preferences.isSome = true ↔ 3 ≤ s.currentStep) ∧
    (s.data.team.isSome = true ↔ 4 ≤ s.currentStep) ∧
    ∀ p, s.data.league = some p → p.leagueId ≠ ""

/-- The canonical trace: Yahoo connect from the initial state. -/
def state1 : OnboardingState :=
  wizardStep initialState WizardEvent.connectYahoo

/-- The canonical trace: then submit the default preferences. -/
def state2 : OnboardingState :=
  wizardStep state1 (WizardEvent.submitPreferences PreferencesSelection.initialPreferences)

/-- The canonical trace: then verify team '3'. -/
def state3 : OnboardingState :=
  wizardStep state2 (WizardEvent.verifyTeam "3")

theorem inv_init : Inv initialState := by
  refine ⟨by decide, by decide, by simp [initialState], by simp [initialState],
    by simp [initialState], ?_⟩
  intro p hp
  simp [initialState] at hp

theorem inv_step (s : OnboardingState) (e : WizardEvent) (h : Inv s) :
    Inv (wizardStep s e) := by
  obtain ⟨h1, h2, hL, hP, hT, hId⟩ := h
  cases e with
  | connectYahoo =>
      simp only [wizardStep]
      by_cases hc : s.currentStep = 1
      · rw [if_pos hc]
        unfold OnboardingContent.handleLeagueConnect LeagueConnection.handleYahooConnect Inv
        dsimp only
        refine ⟨by omega, by omega, by simp, ?_, ?_, ?_⟩
        · constructor
          · intro hp
            have h3 := hP.mp hp
            omega
          · intro hp
            omega
        · constructor
          · intro hp
            have h4 := hT.mp hp
            omega
          · intro hp
            omega
        · intro p hp
          simp only [Option.some.injEq] at hp
          subst hp
          decide
      · rw [if_neg hc]
        exact ⟨h1, h2, hL, hP, hT, hId⟩
  | connectSleeper form =>
      simp only [wizardStep]
      by_cases hc : s.currentStep = 1
      · rw [if_pos hc]
        unfold LeagueConnection.handleSleeperConnect
        by_cases hf : form.league_id = ""
        · rw [if_pos hf]
          exact ⟨h1, h2, hL, hP, hT, hId⟩
        · rw [if_neg hf]
          unfold OnboardingContent.handleLeagueConnect Inv
          dsimp only
          refine ⟨by omega, by omega, by simp, ?_, ?_, ?_⟩
          · constructor
            · intro hp
              have h3 := hP.mp hp
              omega
            · intro hp
              omega
          · constructor
            · intro hp
              have h4 := hT.mp hp
              omega
            · intro hp
              omega
          · intro p hp
            simp only [Option.some.injEq] at hp
            subst hp
            exact hf
      · rw [if_neg hc]
        exact ⟨h1, h2, hL, hP, hT, hId⟩
  | submitPreferences prefs =>
      simp only [wizardStep]
      by_cases hc : s.currentStep = 2
      · rw [if_pos hc]
        unfold OnboardingContent.handlePreferences Inv
        dsimp only
        refine ⟨by omega, by omega, ?_, by simp, ?_, ?_⟩
        · constructor
          · intro hp
            omega
          · intro hp
            exact hL.mpr (by omega)
        · constructor
          · intro hp
            have h4 := hT.mp hp
            omega
          · intro hp
            omega
        · intro p hp
          exact hId p hp
      · rw [if_neg hc]
        exact ⟨h1, h2, hL, hP, hT, hId⟩
  | verifyTeam sel =>
      simp only [wizardStep]
      by_cases hc : s.currentStep = 3 ∧ s.data.league.isSome = true
      · rw [if_pos hc]
        unfold TeamVerification.handleVerify
        by_cases hs : sel = ""
        · rw [if_pos hs]
          exact ⟨h1, h2, hL, hP, hT, hId⟩
        · rw [if_neg hs]
          unfold OnboardingContent.handleTeamVerification Inv
          dsimp only
          refine ⟨by omega, by omega, ?_, ?_, by simp, ?_⟩
          · constructor
            · intro hp
              omega
            · intro hp
              exact hc.2
          · constructor
            · intro hp
              omega
            · intro hp
              have h3 := hc.1
              exact hP.mpr (by omega)
          · intro p hp
            exact hId p hp
      · rw [if_neg hc]
        exact ⟨h1, h2, hL, hP, hT, hId⟩

theorem reachable_inv (s : OnboardingState) (h : Reachable s) : Inv s := by
  induction h with
  | init => exact inv_init
  | step t e _ ih => exact inv_step t e ih

/-- No interaction moves the step pointer anywhere except to its immediate
successor: either the state is unchanged or `currentStep` grows by exactly
one. -/
theorem wizardStep_progress (s : OnboardingState) (e : WizardEvent) :
    wizardStep s e = s ∨ (wizardStep s e).currentStep = s.currentStep + 1 := by
  cases e with
  | connectYahoo =>
      simp only [wizardStep]
      by_cases hc : s.currentStep = 1
      · rw [if_pos hc]
        right
        simp [OnboardingContent.handleLeagueConnect, hc]
      · rw [if_neg hc]
        left
        rfl
  | connectSleeper form =>
      simp only [wizardStep]
      by_cases hc : s.currentStep = 1
      · rw [if_pos hc]
        unfold LeagueConnection.handleSleeperConnect
        by_cases hf : form.league_id = ""
        · rw [if_pos hf]
          left
          rfl
        · rw [if_neg hf]
          right
          simp [OnboardingContent.handleLeagueConnect, hc]
      · rw [if_neg hc]
        left
        rfl
  | submitPreferences prefs =>
      simp only [wizardStep]
      by_cases hc : s.currentStep = 2
      · rw [if_pos hc]
        right
        simp [OnboardingContent.handlePreferences, hc]
      · rw [if_neg hc]
        left
        rfl
  | verifyTeam sel =>
      simp only [wizardStep]
      by_cases hc : s.currentStep = 3 ∧ s.data.league.isSome = true
      · rw [if_pos hc]
        unfold TeamVerification.handleVerify
        by_cases hs : sel = ""
        · rw [if_pos hs]
          left
          rfl
        · rw [if_neg hs]
          right
          simp [OnboardingContent.handleTeamVerification, hc.1]
      · rw [if_neg hc]
        left
        rfl

theorem reachable_state1 : Reachable state1 :=
  Reachable.step initialState WizardEvent.connectYahoo Reachable.init

theorem reachable_state2 : Reachable state2 :=
  Reachable.step state1 (WizardEvent.submitPreferences PreferencesSelection.initialPreferences)
    reachable_state1

theorem reachable_state3 : Reachable state3 :=
  Reachable.step state2 (WizardEvent.verifyTeam "3") reachable_state2

/-- C1: from every reachable wizard state, an interaction never decreases
the `currentStep` pointer (1 = CONNECT < 2 = PREFERENCES < 3 = VERIFY <
4 = COMPLETE), and every advance goes to the immediate successor: the state
is either left unchanged or its pointer grows by exactly one, so no state is
skipped. -/
theorem c1_currentStep_monotone_no_skip (s : OnboardingState) (e : WizardEvent)
    (h : Reachable s) :
    s.currentStep ≤ (wizardStep s e).currentStep ∧
      (wizardStep s e = s ∨ (wizardStep s e).currentStep = s.currentStep + 1) := by
  rcases wizardStep_progress s e with heq | hsucc
  · refine ⟨?_, Or.inl heq⟩
    rw [heq]
  · refine ⟨?_, Or.inr hsucc⟩
    rw [hsucc]
    exact Nat.le_succ _

/-- Witness for C1 at the initial state with a Yahoo connect interaction. -/
theorem c1_witness :
    Reachable initialState ∧
      (initialState.currentStep ≤ (wizardStep initialState WizardEvent.connectYahoo).currentStep ∧
        (wizardStep initialState WizardEvent.connectYahoo = initialState ∨
          (wizardStep initialState WizardEvent.connectYahoo).currentStep =
            initialState.currentStep + 1)) :=
  ⟨Reachable.init,
    c1_currentStep_monotone_no_skip initialState WizardEvent.connectYahoo Reachable.init⟩

/-- C2: in every reachable state the TeamVerification panel is rendered
exactly when `currentStep` is VERIFY, at which point `league` is always
populated (so it is never rendered with `league` absent), and VERIFY is
indeed reached with `league` populated along the canonical path. -/
theorem c2_verify_requires_league (s : OnboardingState) (h : Reachable s) :
    (verifyRendered s = true ↔ s.currentStep = 3) ∧
      (s.currentStep = 3 → s.data.league.isSome = true) ∧
      ∃ t, Reachable t ∧ t.currentStep = 3 ∧ t.data.league.isSome = true := by
  obtain ⟨h1, h2, hL, hP, hT, hId⟩ := reachable_inv s h
  have hlg : s.currentStep = 3 → s.data.league.isSome = true := by
    intro h3
    exact hL.mpr (by omega)
  refine ⟨?_, hlg, ⟨state2, reachable_state2, by decide, by decide⟩⟩
  constructor
  · intro hv
    unfold verifyRendered at hv
    simp only [Bool.and_eq_true, beq_iff_eq] at hv
    exact hv.1
  · intro h3
    unfold verifyRendered
    simp only [Bool.and_eq_true, beq_iff_eq]
    exact ⟨h3, hlg h3⟩

/-- Witness for C2 at the reachable state after Yahoo connect and default
preferences, whose step pointer is VERIFY. -/
theorem c2_witness :
    Reachable state2 ∧
      ((verifyRendered state2 = true ↔ state2.currentStep = 3) ∧
        (state2.currentStep = 3 → state2.data.league.isSome = true) ∧
        ∃ t, Reachable t ∧ t.currentStep = 3 ∧ t.data.league.isSome = true) :=
  ⟨reachable_state2, c2_verify_requires_league state2 reachable_state2⟩

/-- C3: submitting the Sleeper connect form with an empty league id sets the
message to exactly 'League ID is required', starts no connect request, emits
no payload, and leaves any wizard state (session and step pointer)
unchanged. -/
theorem c3_empty_league_id_rejected (username : String) (s : OnboardingState) :
    (LeagueConnection.handleSleeperConnect ⟨"", username⟩).message = "League ID is required" ∧
      (LeagueConnection.handleSleeperConnect ⟨"", username⟩).connectRequested = false ∧
      (LeagueConnection.handleSleeperConnect ⟨"", username⟩).emission = none ∧
      wizardStep s (WizardEvent.connectSleeper ⟨"", username⟩) = s := by
  refine ⟨rfl, rfl, rfl, ?_⟩
  simp only [wizardStep, LeagueConnection.handleSleeperConnect]
  by_cases hc : s.currentStep = 1
  · rw [if_pos hc]
    simp
  · rw [if_neg hc]

/-- C4 counterexample: submitting the Sleeper form with league id '123' and
the untouched (empty-string) username field makes the session league
`{ platform: sleeper, leagueId: '123', username: '' }` — the username is the
empty string, not the absent value the claim states. -/
theorem c4_counterexample :
    (wizardStep initialState (WizardEvent.connectSleeper ⟨"123", ""⟩)).data.league =
        some ⟨Platform.sleeper, "123", some ""⟩ ∧
      ¬(wizardStep initialState (WizardEvent.connectSleeper ⟨"123", ""⟩)).data.league =
        some ⟨Platform.sleeper, "123", none⟩ := by
  decide

/-- C4 (amended): a Sleeper connect submission with league id '123' from the
CONNECT step sets the session league to
`{ platform: sleeper, leagueId: '123', username }` with the form's username
string (empty when untouched) and advances the pointer to PREFERENCES. -/
theorem c4_sleeper_success_sets_league (s : OnboardingState) (username : String)
    (h : s.currentStep = 1) :
    (wizardStep s (WizardEvent.connectSleeper ⟨"123", username⟩)).data.league =
        some ⟨Platform.sleeper, "123", some username⟩ ∧
      (wizardStep s (WizardEvent.connectSleeper ⟨"123", username⟩)).currentStep = 2 := by
  simp only [wizardStep, LeagueConnection.handleSleeperConnect]
  rw [if_pos h]
  exact ⟨rfl, rfl⟩

/-- Witness for C4 (amended) at the initial state with an untouched username
field. -/
theorem c4_witness :
    initialState.currentStep = 1 ∧
      ((wizardStep initialState (WizardEvent.connectSleeper ⟨"123", ""⟩)).data.league =
          some ⟨Platform.sleeper, "123", some ""⟩ ∧
        (wizardStep initialState (WizardEvent.connectSleeper ⟨"123", ""⟩)).currentStep = 2) :=
  ⟨rfl, c4_sleeper_success_sets_league initialState "" rfl⟩

/-- C5: when the Sleeper connect fetch returns a non-2xx response with some
body, the displayed message is exactly the wrapper 'Failed to connect: '
followed by the body (so it contains the body), and the step counter stays
at CONNECT (1). -/
theorem c5_non_ok_response_shows_body_keeps_step (st : ConnectPage.State) (body : String)
    (hid : st.sleeperData.league_id ≠ "") (hstep : st.step = 1) :
    (ConnectPage.handleSleeperConnect st (ConnectPage.FetchOutcome.failure body)).message =
        "Failed to connect: " ++ body ∧
      (∃ pre,
        (ConnectPage.handleSleeperConnect st (ConnectPage.FetchOutcome.failure body)).message =
          pre ++ body) ∧
      (ConnectPage.handleSleeperConnect st (ConnectPage.FetchOutcome.failure body)).step = 1 := by
  unfold ConnectPage.handleSleeperConnect
  rw [if_neg hid]
  exact ⟨rfl, ⟨"Failed to connect: ", rfl⟩, hstep⟩

/-- Witness for C5: league id 'abc', response body 'league not found'. -/
theorem c5_witness :
    (⟨⟨"abc", ""⟩, "", 1⟩ : ConnectPage.State).sleeperData.league_id ≠ "" ∧
      ((ConnectPage.handleSleeperConnect ⟨⟨"abc", ""⟩, "", 1⟩
            (ConnectPage.FetchOutcome.failure "league not found")).message =
          "Failed to connect: " ++ "league not found" ∧
        (∃ pre,
          (ConnectPage.handleSleeperConnect ⟨⟨"abc", ""⟩, "", 1⟩
              (ConnectPage.FetchOutcome.failure "league not found")).message =
            pre ++ "league not found") ∧
        (ConnectPage.handleSleeperConnect ⟨⟨"abc", ""⟩, "", 1⟩
            (ConnectPage.FetchOutcome.failure "league not found")).step = 1) :=
  ⟨by decide,
    c5_non_ok_response_shows_body_keeps_step ⟨⟨"abc", ""⟩, "", 1⟩ "league not found"
      (by decide) rfl⟩

/-- C6: in every reachable state the pointer is at COMPLETE exactly when all
three of `league`, `preferences`, `team` are populated — in particular none
of them is absent at COMPLETE — and COMPLETE is reached along the canonical
path. -/
theorem c6_complete_iff_all_fields (s : OnboardingState) (h : Reachable s) :
    (s.currentStep = 4 ↔
        s.data.league.isSome = true ∧ s.data.preferences.isSome = true ∧
          s.data.team.isSome = true) ∧
      ∃ t, Reachable t ∧ t.currentStep = 4 := by
  obtain ⟨h1, h2, hL, hP, hT, hId⟩ := reachable_inv s h
  refine ⟨?_, ⟨state3, reachable_state3, by decide⟩⟩
  constructor
  · intro h4
    exact ⟨hL.mpr (by omega), hP.mpr (by omega), hT.mpr (by omega)⟩
  · rintro ⟨-, -, ht⟩
    have h4 := hT.mp ht
    omega

/-- Witness for C6 at the reachable COMPLETE state of the canonical trace. -/
theorem c6_witness :
    Reachable state3 ∧
      ((state3.currentStep = 4 ↔
          state3.data.league.isSome = true ∧ state3.data.preferences.isSome = true ∧
            state3.data.team.isSome = true) ∧
        ∃ t, Reachable t ∧ t.currentStep = 4) :=
  ⟨reachable_state3, c6_complete_iff_all_fields state3 reachable_state3⟩

/-- C7: the preference record initializes to exactly the defaults
(emailNotifications, weeklyRecap, powerRankings, waiverReport, tradeAlerts
true; injuryAlerts, groupmeIntegration false; recapDay 'tuesday'; recapTime
'09:00'), and for every form state submission performs no validation and
emits the record verbatim: from the PREFERENCES step the submitted record is
stored unchanged and the pointer moves on. -/
theorem c7_preferences_defaults_verbatim_submit (p : PreferenceSet) (s : OnboardingState)
    (h : s.currentStep = 2) :
    PreferencesSelection.initialPreferences.emailNotifications = true ∧
      PreferencesSelection.initialPreferences.weeklyRecap = true ∧
      PreferencesSelection.initialPreferences.recapDay = "tuesday" ∧
      PreferencesSelection.initialPreferences.recapTime = "09:00" ∧
      PreferencesSelection.initialPreferences.powerRankings = true ∧
      PreferencesSelection.initialPreferences.waiverReport = true ∧
      PreferencesSelection.initialPreferences.injuryAlerts = false ∧
      PreferencesSelection.initialPreferences.tradeAlerts = true ∧
      PreferencesSelection.initialPreferences.groupmeIntegration = false ∧
      PreferencesSelection.handleSubmit p = p ∧
      (wizardStep s (WizardEvent.submitPreferences p)).data.preferences = some p ∧
      (wizardStep s (WizardEvent.submitPreferences p)).currentStep = 3 := by
  refine ⟨rfl, rfl, rfl, rfl, rfl, rfl, rfl, rfl, rfl, rfl, ?_, ?_⟩
  · simp only [wizardStep]
    rw [if_pos h]
    rfl
  · simp only [wizardStep]
    rw [if_pos h]
    rfl

/-- Witness for C7 at the state after Yahoo connect, submitting the default
record. -/
theorem c7_witness :
    state1.currentStep = 2 ∧
      (PreferencesSelection.initialPreferences.emailNotifications = true ∧
        PreferencesSelection.initialPreferences.weeklyRecap = true ∧
        PreferencesSelection.initialPreferences.recapDay = "tuesday" ∧
        PreferencesSelection.initialPreferences.recapTime = "09:00" ∧
        PreferencesSelection.initialPreferences.powerRankings = true ∧
        PreferencesSelection.initialPreferences.waiverReport = true ∧
        PreferencesSelection.initialPreferences.injuryAlerts = false ∧
        PreferencesSelection.initialPreferences.tradeAlerts = true ∧
        PreferencesSelection.initialPreferences.groupmeIntegration = false ∧
        PreferencesSelection.handleSubmit PreferencesSelection.initialPreferences =
          PreferencesSelection.initialPreferences ∧
        (wizardStep state1
            (WizardEvent.submitPreferences PreferencesSelection.initialPreferences)).data.preferences =
          some PreferencesSelection.initialPreferences ∧
        (wizardStep state1
            (WizardEvent.submitPreferences PreferencesSelection.initialPreferences)).currentStep = 3) :=
  ⟨rfl,
    c7_preferences_defaults_verbatim_submit PreferencesSelection.initialPreferences state1 rfl⟩

/-- C8: with no candidate selected the confirm control is disabled and a
confirm attempt changes nothing in any state; from any reachable VERIFY
state, selecting candidate '3' and confirming moves the pointer to COMPLETE
with `team = { teamId: '3' }`. -/
theorem c8_team_verification (s : OnboardingState) (loading : Bool)
    (h : Reachable s) (h3 : s.currentStep = 3) :
    TeamVerification.verifyDisabled "" loading = true ∧
      (∀ t : OnboardingState, wizardStep t (WizardEvent.verifyTeam "") = t) ∧
      (wizardStep s (WizardEvent.verifyTeam "3")).currentStep = 4 ∧
      (wizardStep s (WizardEvent.verifyTeam "3")).data.team = some ⟨"3"⟩ := by
  obtain ⟨h1, h2, hL, hP, hT, hId⟩ := reachable_inv s h
  have hlg : s.data.league.isSome = true := hL.mpr (by omega)
  refine ⟨by simp [TeamVerification.verifyDisabled], ?_, ?_, ?_⟩
  · intro t
    simp only [wizardStep, TeamVerification.handleVerify]
    by_cases hc : t.currentStep = 3 ∧ t.data.league.isSome = true
    · rw [if_pos hc]
      simp
    · rw [if_neg hc]
  · simp only [wizardStep, TeamVerification.handleVerify]
    rw [if_pos ⟨h3, hlg⟩]
    rfl
  · simp only [wizardStep, TeamVerification.handleVerify]
    rw [if_pos ⟨h3, hlg⟩]
    rfl

/-- Witness for C8 at the reachable VERIFY state of the canonical trace. -/
theorem c8_witness :
    Reachable state2 ∧ state2.currentStep = 3 ∧
      (TeamVerification.verifyDisabled "" false = true ∧
        (∀ t : OnboardingState, wizardStep t (WizardEvent.verifyTeam "") = t) ∧
        (wizardStep state2 (WizardEvent.verifyTeam "3")).currentStep = 4 ∧
        (wizardStep state2 (WizardEvent.verifyTeam "3")).data.team = some ⟨"3"⟩) :=
  ⟨reachable_state2, by decide, c8_team_verification state2 false reachable_state2 (by decide)⟩

/-- C9: the completion step's 'go to settings' action routes to
'/settings/abc' for league id 'abc' and to '/dashboard' when no league id is
present; in every reachable state a present league id routes to its
league-scoped settings path and an absent one to the dashboard. -/
theorem c9_completion_routing (s : OnboardingState) (h : Reachable s) :
    SetupComplete.handleGoToSettings (some "abc") = "/settings/abc" ∧
      SetupComplete.handleGoToSettings none = "/dashboard" ∧
      (∀ id, completionLeagueId s = some id →
        SetupComplete.handleGoToSettings (completionLeagueId s) = "/settings/" ++ id) ∧
      (completionLeagueId s = none →
        SetupComplete.handleGoToSettings (completionLeagueId s) = "/dashboard") := by
  obtain ⟨h1, h2, hL, hP, hT, hId⟩ := reachable_inv s h
  refine ⟨rfl, rfl, ?_, ?_⟩
  · intro id hid
    have hne : id ≠ "" := by
      unfold completionLeagueId at hid
      cases hlg : s.data.league with
      | none =>
          rw [hlg] at hid
          simp at hid
      | some p =>
          rw [hlg] at hid
          simp only [Option.map_some', Option.some.injEq] at hid
          rw [← hid]
          exact hId p hlg
    rw [hid]
    unfold SetupComplete.handleGoToSettings
    dsimp only
    rw [if_neg hne]
  · intro hid
    rw [hid]
    rfl

/-- Witness for C9 at the reachable COMPLETE state of the canonical trace. -/
theorem c9_witness :
    Reachable state3 ∧
      (SetupComplete.handleGoToSettings (some "abc") = "/settings/abc" ∧
        SetupComplete.handleGoToSettings none = "/dashboard" ∧
        (∀ id, completionLeagueId state3 = some id →
          SetupComplete.handleGoToSettings (completionLeagueId state3) = "/settings/" ++ id) ∧
        (completionLeagueId state3 = none →
          SetupComplete.handleGoToSettings (completionLeagueId state3) = "/dashboard")) :=
  ⟨reachable_state3, c9_completion_routing state3 reachable_state3⟩

/-- C10: the Yahoo connect action always emits the fixed payload
`{ platform: yahoo, leagueId: 'yahoo-league-123' }` (no username key), so
after a Yahoo connect from the CONNECT step the session league is that
constant and its league id is 'yahoo-league-123'. -/
theorem c10_yahoo_constant_payload (s : OnboardingState) (h : s.currentStep = 1) :
    LeagueConnection.handleYahooConnect = ⟨Platform.yahoo, "yahoo-league-123", none⟩ ∧
      (wizardStep s WizardEvent.connectYahoo).data.league =
        some LeagueConnection.handleYahooConnect ∧
      Option.map (fun p => p.leagueId) (wizardStep s WizardEvent.connectYahoo).data.league =
        some "yahoo-league-123" := by
  refine ⟨rfl, ?_, ?_⟩
  · simp only [wizardStep]
    rw [if_pos h]
    rfl
  · simp only [wizardStep]
    rw [if_pos h]
    rfl

/-- Witness for C10 at the initial state. -/
theorem c10_witness :
    initialState.currentStep = 1 ∧
      (LeagueConnection.handleYahooConnect = ⟨Platform.yahoo, "yahoo-league-123", none⟩ ∧
        (wizardStep initialState WizardEvent.connectYahoo).data.league =
          some LeagueConnection.handleYahooConnect ∧
        Option.map (fun p => p.leagueId)
            (wizardStep initialState WizardEvent.connectYahoo).data.league =
          some "yahoo-league-123") :=
  ⟨rfl, c10_yahoo_constant_payload initialState rfl⟩

end AICommissioner
